import Mathlib

/-!
# cmd/init.go of gqlgen: the init command

A shallow embedding of `src/cmd/init.go`: the schema bootstrapper
(`initSchema`), the configuration resolver (`initConfig`) and the
generation orchestrator (`GenerateGraphServer`), run in that order by
`initCmd`.

The Go code works on process-wide flag variables, on the filesystem, on the
two output streams, and it ends the process with `os.Exit`. Here a `World`
carries the filesystem, the flag variables, both streams and the log of
calls made so far, and every function returns an `Outcome`: it came back
with a value, the process exited with a code, or it dereferenced a nil
pointer.
-/

namespace Gqlgen

/-! ## Go values -/

/-- A Go `error` value, as far as init.go looks at it: `err.Error()` and
`os.IsNotExist(errors.Cause(err))`. -/
structure GoError where
  msg : String
  notExist : Bool
deriving DecidableEq, Repr

/-- Modelled from the spec: `codegen.PackageConfig` is declared in the codegen
package, outside src/; these are the fields init.go reads or writes
(`Type_` is the Go field `Type`). -/
structure PackageConfig where
  Filename : String
  Package : String
  Type_ : String
deriving DecidableEq, Repr

/-- Modelled from the spec: `codegen.TypeMap`, the model map from schema type
names to target-language type bindings; init.go only replaces it whole. -/
abbrev TypeMap := List (String × String)

/-- Modelled from the spec: `codegen.Config` is declared in the codegen
package, outside src/; these are the fields init.go reads or writes. -/
structure Config where
  SchemaFilename : String
  SchemaStr : String
  Exec : PackageConfig
  Model : PackageConfig
  Resolver : PackageConfig
  Models : TypeMap
deriving DecidableEq, Repr

/-- The process-wide flag variables init.go reads and assigns; cobra fills
them in from the command line before `Run` is called. -/
structure Flags where
  configFilename : String
  schemaFilename : String
  models : String
  output : String
  packageName : String
  modelPackageName : String
  typemap : String
  serverFilename : String
deriving DecidableEq, Repr

/-- The filesystem: the bytes of the file at each path, `none` where no file
exists. -/
abbrev FS := String → Option String

/-- The filesystem with the file at `path` holding `data`. -/
def FS.write (fs : FS) (path data : String) : FS :=
  fun q => if q = path then some data else fs q

/-- The filesystem after a write to `path` that failed: untouched when the open
failed (`none`), else with what the interrupted write left in the file. -/
def FS.leave (fs : FS) (path : String) (left : Option String) : FS :=
  match left with
  | some s => fs.write path s
  | none => fs

/-- The four stages of `GenerateGraphServer`. -/
inductive Stage where
  | readSchema
  | check
  | generate
  | generateServer
deriving DecidableEq, Repr

/-- One call the program made to the operating system or to a collaborator,
with what the call gave back. -/
inductive Call where
  | Stat (path : String) (err : Option GoError)
  | WriteFile (path data : String) (err : Option GoError)
  | ReadFile (path : String) (res : Except GoError String)
  | LoadConfig (path : String) (res : Option Config × Option GoError)
  | LoadConfigFromDefaultLocations (res : Option Config × Option GoError)
  | DefaultConfig (res : Config)
  | loadModelMap (res : TypeMap)
  | Marshal (c : Option Config) (res : Except GoError String)
  | Check (c : Config) (err : Option GoError)
  | Generate (c : Config) (err : Option GoError)
  | GenerateServer (c : Config) (filename : String) (err : Option GoError)

/-- The generation stage a call belongs to, if any. -/
def Call.stage : Call → Option Stage
  | .ReadFile _ _ => some .readSchema
  | .Check _ _ => some .check
  | .Generate _ _ => some .generate
  | .GenerateServer _ _ _ => some .generateServer
  | _ => none

/-- Whether the call is a write to the filesystem made by init.go itself. -/
def Call.isWrite : Call → Bool
  | .WriteFile _ _ _ => true
  | _ => false

/-- The collaborators of init.go: the functions of the codegen package and of
yaml, `loadModelMap` of this package (declared outside src/), and the faults
the operating system may answer with.

* `statFault fs path` is the reason `os.Stat(path)` fails for, other than the
  file not existing (a component of the path is not a directory, permission
  denied).
* `writeFault fs path data` is the failure of `ioutil.WriteFile(path, data, _)`:
  the error, and what the file at `path` holds afterwards: `none` when the open
  failed and the filesystem is untouched, `some s` when the file was created or
  truncated and the write stopped with `s` in it.
* `stat_write`: a path `os.Stat` cannot resolve cannot be opened for writing
  either. -/
structure Collab where
  LoadConfig : FS → String → Option Config × Option GoError
  LoadConfigFromDefaultLocations : FS → Option Config × Option GoError
  DefaultConfig : Config
  loadModelMap : FS → String → TypeMap
  Marshal : Option Config → Except GoError String
  Check : Config → Option GoError
  Generate : FS → Config → Option GoError × FS
  GenerateServer : FS → Config → String → Option GoError × FS
  statFault : FS → String → Option String
  writeFault : FS → String → String → Option (GoError × Option String)
  readFault : FS → String → Option GoError
  stat_write : ∀ fs path data, statFault fs path ≠ none → writeFault fs path data ≠ none

/-- The state of the process and of the machine around it. -/
structure World where
  fs : FS
  flags : Flags
  stdout : List String
  stderr : List String
  calls : List Call

/-- How a function of init.go ends: it returns, the process exits through
`os.Exit`, or a nil pointer is dereferenced. -/
inductive Outcome (α : Type) where
  | ret (a : α) (w : World)
  | exit (code : Nat) (w : World)
  | nilDeref (w : World)

/-- The world an outcome leaves behind. -/
def Outcome.world {α : Type} : Outcome α → World
  | .ret _ w => w
  | .exit _ w => w
  | .nilDeref w => w

/-- The exit code, when the process was ended by `os.Exit`. -/
def Outcome.exitCode {α : Type} : Outcome α → Option Nat
  | .exit code _ => some code
  | _ => none

/-- Sequencing: the rest runs only after a return. -/
def Outcome.andThen {α β : Type} (o : Outcome α) (f : α → World → Outcome β) : Outcome β :=
  match o with
  | .ret a w => f a w
  | .exit code w => .exit code w
  | .nilDeref w => .nilDeref w

/-! ## The operating system and the standard library -/

/-- The characters `unicode.IsSpace` accepts. -/
def isSpace (c : Char) : Bool :=
  let n := c.toNat
  (9 ≤ n && n ≤ 13) || n = 32 || n = 0x85 || n = 0xA0 || n = 0x1680 ||
  (0x2000 ≤ n && n ≤ 0x200A) || n = 0x2028 || n = 0x2029 || n = 0x202F ||
  n = 0x205F || n = 0x3000

/-- The function `strings.TrimSpace`: leading and trailing white space removed. -/
def TrimSpace (s : String) : String :=
  String.mk ((s.data.dropWhile isSpace).reverse.dropWhile isSpace).reverse

/-- The call `fmt.Fprintln(os.Stderr, line)`. -/
def World.errln (w : World) (line : String) : World :=
  { w with stderr := w.stderr ++ [line] }

/-- The call `fmt.Fprintln(os.Stdout, line)`. -/
def World.outln (w : World) (line : String) : World :=
  { w with stdout := w.stdout ++ [line] }

/-- Append a call to the log. -/
def World.log (w : World) (c : Call) : World :=
  { w with calls := w.calls ++ [c] }

/-- The test `os.IsNotExist(err)`, also of `errors.Cause(err)`; false of a nil
error. -/
def os_IsNotExist (err : Option GoError) : Bool :=
  match err with
  | some e => e.notExist
  | none => false

/-- The error of `os.Stat(path)`: the fault when the operating system cannot
resolve the path, else nil when a file exists there and a not-exist error when
none does. -/
def statResult (env : Collab) (fs : FS) (path : String) : Option GoError :=
  match env.statFault fs path with
  | some reason => some ⟨"stat " ++ path ++ ": " ++ reason, false⟩
  | none => match fs path with
    | some _ => none
    | none => some ⟨"stat " ++ path ++ ": no such file or directory", true⟩

/-- The call `os.Stat(path)`, of which init.go keeps the error. -/
def os_Stat (env : Collab) (w : World) (path : String) : Option GoError × World :=
  let err := statResult env w.fs path
  (err, w.log (.Stat path err))

/-- The call `ioutil.WriteFile(path, data, 0644)`: on success the file at `path`
holds `data`; on failure the file is untouched when the open failed, and holds
what the interrupted write left when it failed later. No other path changes. -/
def ioutil_WriteFile (env : Collab) (w : World) (path data : String) : Option GoError × World :=
  match env.writeFault w.fs path data with
  | some (e, left) =>
    (some e, { w with fs := w.fs.leave path left, calls := w.calls ++ [.WriteFile path data (some e)] })
  | none => (none, { w with fs := w.fs.write path data, calls := w.calls ++ [.WriteFile path data none] })

/-- What `ioutil.ReadFile(path)` gives back: the bytes of the file, a not-exist
error when there is none, or the fault the operating system answers with. -/
def readResult (env : Collab) (fs : FS) (path : String) : Except GoError String :=
  match env.readFault fs path with
  | some e => .error e
  | none => match fs path with
    | some s => .ok s
    | none => .error ⟨"open " ++ path ++ ": no such file or directory", true⟩

/-- The call `ioutil.ReadFile(path)`. -/
def ioutil_ReadFile (env : Collab) (w : World) (path : String) : Except GoError String × World :=
  let res := readResult env w.fs path
  (res, w.log (.ReadFile path res))

/-! ## init.go -/

/-- The variable `configComment`. -/
def configComment : String :=
  "\n# .gqlgen.yml example\n#\n# Refer to https://gqlgen.com/config/\n# for detailed .gqlgen.yml documentation.\n"

/-- The variable `schemaDefault`. -/
def schemaDefault : String :=
  "\n# GraphQL schema example\n#\n# https://gqlgen.com/getting-started/\n\ntype Todo \x7b\n  id: ID!\n  text: String!\n  done: Boolean!\n  user: User!\n\x7d\n\ntype User \x7b\n  id: ID!\n  name: String!\n\x7d\n\ntype Query \x7b\n  todos: [Todo!]!\n\x7d\n\ninput NewTodo \x7b\n  text: String!\n  userId: String!\n\x7d\n\ntype Mutation \x7b\n  createTodo(input: NewTodo!): Todo!\n\x7d\n"

/-- The function `initSchema`. -/
def initSchema (env : Collab) (w : World) : Outcome Unit :=
  let w1 : World :=
    if w.flags.schemaFilename = "" then
      { w with flags := { w.flags with schemaFilename := "schema.graphql" } }
    else w
  let (err, w2) := os_Stat env w1 w1.flags.schemaFilename
  if !os_IsNotExist err then
    .ret () w2
  else
    let (werr, w3) := ioutil_WriteFile env w2 w2.flags.schemaFilename (TrimSpace schemaDefault)
    match werr with
    | some e => .exit 1 (w3.errln ("unable to write schema file: " ++ e.msg))
    | none => .ret () w3

/-- The configuration lookup at the head of `initConfig`: the explicit path
when `configFilename` is set, the default locations otherwise. It returns the
`config` pointer the rest of the function goes on with. -/
def initConfig_load (env : Collab) (w : World) : Outcome (Option Config) :=
  if w.flags.configFilename ≠ "" then
    let r := env.LoadConfig w.fs w.flags.configFilename
    let w1 := w.log (.LoadConfig w.flags.configFilename r)
    match r.2 with
    | some err => .exit 1 (w1.errln err.msg)
    | none =>
      match r.1 with
      | some _ => .exit 0 (w1.errln "config file already exists")
      | none => .ret none w1
  else
    let r := env.LoadConfigFromDefaultLocations w.fs
    let w1 := w.log (.LoadConfigFromDefaultLocations r)
    if os_IsNotExist r.2 then
      let w2 : World :=
        if w1.flags.configFilename = "" then
          { w1 with flags := { w1.flags with configFilename := "gqlgen.yml" } }
        else w1
      let config := env.DefaultConfig
      let w3 := w2.log (.DefaultConfig config)
      .ret (some { config with Resolver := { Filename := "resolver.go", Package := "", Type_ := "Resolver" } }) w3
    else
      match r.1 with
      | some _ => .exit 0 (w1.errln "config file already exists")
      | none =>
        match r.2 with
        | some err => .exit 1 (w1.errln err.msg)
        | none => .ret none w1

/-- One assignment through the `config` pointer, guarded by a flag: skipped
when the flag is empty, a nil dereference when the pointer is nil. -/
def assignIf (flag : String) (set : Config → Config) (config : Option Config) (w : World) :
    Outcome (Option Config) :=
  if flag ≠ "" then
    match config with
    | some c => .ret (some (set c)) w
    | none => .nilDeref w
  else .ret config w

/-- The override step of `initConfig`: the six guarded assignments, in the
order of the source. -/
def initConfig_overrides (env : Collab) (config : Option Config) (w : World) :
    Outcome (Option Config) :=
  (assignIf w.flags.schemaFilename (fun c => { c with SchemaFilename := w.flags.schemaFilename }) config w).andThen
  fun config w =>
  (assignIf w.flags.models (fun c => { c with Model := { c.Model with Filename := w.flags.models } }) config w).andThen
  fun config w =>
  (assignIf w.flags.output (fun c => { c with Exec := { c.Exec with Filename := w.flags.output } }) config w).andThen
  fun config w =>
  (assignIf w.flags.packageName (fun c => { c with Exec := { c.Exec with Package := w.flags.packageName } }) config w).andThen
  fun config w =>
  (assignIf w.flags.modelPackageName (fun c => { c with Model := { c.Model with Package := w.flags.modelPackageName } }) config w).andThen
  fun config w =>
  if w.flags.typemap ≠ "" then
    let m := env.loadModelMap w.fs w.flags.typemap
    match config with
    | some c => .ret (some { c with Models := m }) (w.log (.loadModelMap m))
    | none => .nilDeref (w.log (.loadModelMap m))
  else .ret config w

/-- The tail of `initConfig`: the header comment and the marshalled
configuration are written to `configFilename`. -/
def initConfig_persist (env : Collab) (config : Option Config) (w : World) :
    Outcome (Option Config) :=
  let buf := TrimSpace configComment ++ "\n\n"
  let res := env.Marshal config
  let w1 := w.log (.Marshal config res)
  match res with
  | .error err => .exit 1 (w1.errln ("unable to marshal yaml: " ++ err.msg))
  | .ok b =>
    let (werr, w2) := ioutil_WriteFile env w1 w1.flags.configFilename (buf ++ b)
    match werr with
    | some err => .exit 1 (w2.errln ("unable to write config file: " ++ err.msg))
    | none => .ret config w2

/-- The function `initConfig`. -/
def initConfig (env : Collab) (w : World) : Outcome (Option Config) :=
  (initConfig_load env w).andThen fun config w =>
  (initConfig_overrides env config w).andThen fun config w =>
  initConfig_persist env config w

/-- The line `GenerateGraphServer` prints on success. -/
def successLine : String := "Exec \"go run ./server/server.go\" to start GraphQL server"

/-- The function `GenerateGraphServer`. -/
def GenerateGraphServer (env : Collab) (w : World) (config : Option Config) : Outcome Unit :=
  match config with
  | none => .nilDeref w
  | some config0 =>
    let (res, w1) := ioutil_ReadFile env w config0.SchemaFilename
    match res with
    | .error err => .exit 1 (w1.errln ("unable to open schema: " ++ err.msg))
    | .ok schemaRaw =>
      let config := { config0 with SchemaStr := schemaRaw }
      let cerr := env.Check config
      let w2 := w1.log (.Check config cerr)
      match cerr with
      | some err => .exit 1 (w2.errln ("invalid config format: " ++ err.msg))
      | none =>
        let w3 : World :=
          if w2.flags.serverFilename = "" then
            { w2 with flags := { w2.flags with serverFilename := "server/server.go" } }
          else w2
        let g := env.Generate w3.fs config
        let w4 : World := { w3 with fs := g.2, calls := w3.calls ++ [.Generate config g.1] }
        match g.1 with
        | some err => .exit 1 (w4.errln err.msg)
        | none =>
          let s := env.GenerateServer w4.fs config w4.flags.serverFilename
          let w5 : World :=
            { w4 with fs := s.2, calls := w4.calls ++ [.GenerateServer config w4.flags.serverFilename s.1] }
          match s.1 with
          | some err => .exit 1 (w5.errln err.msg)
          | none => .ret () (w5.outln successLine)

/-- The `Run` function of `initCmd`. -/
def initCmd (env : Collab) (w : World) : Outcome Unit :=
  (initSchema env w).andThen fun _ w =>
  (initConfig env w).andThen fun config w =>
  GenerateGraphServer env w config

/-! ## Notions the statements use -/

/-- The resolved schema path: the supplied one, or the fixed default when none
is supplied. -/
def schemaPath (f : Flags) : String :=
  if f.schemaFilename = "" then "schema.graphql" else f.schemaFilename

/-- The flags with the schema path resolved, as `initSchema` leaves them. -/
def Flags.resolveSchema (f : Flags) : Flags :=
  { f with schemaFilename := schemaPath f }

/-- A loader result that is a success: a configuration and no error. -/
def Loaded (r : Option Config × Option GoError) : Prop :=
  ∃ c, r = (some c, none)

/-- A loader result that fails with a not-found cause. -/
def NotFound (r : Option Config × Option GoError) : Prop :=
  ∃ e, r.2 = some e ∧ e.notExist = true

/-- A loader result that fails with a cause other than not-found. -/
def OtherError (r : Option Config × Option GoError) (e : GoError) : Prop :=
  r.2 = some e ∧ e.notExist = false

/-- The configuration built when no config file is found: `DefaultConfig()`
with its `Resolver` set. -/
def defaultBase (env : Collab) : Config :=
  { env.DefaultConfig with Resolver := { Filename := "resolver.go", Package := "", Type_ := "Resolver" } }

/-- The claim's words for the override step: `c` with each field replaced whose
override is non-empty, the model map replaced whole by `m` when `typemap` is
non-empty, and every other field as it is in `c`. -/
def withOverrides (f : Flags) (m : TypeMap) (c : Config) : Config :=
  { SchemaFilename := if f.schemaFilename ≠ "" then f.schemaFilename else c.SchemaFilename
    SchemaStr := c.SchemaStr
    Exec :=
      { Filename := if f.output ≠ "" then f.output else c.Exec.Filename
        Package := if f.packageName ≠ "" then f.packageName else c.Exec.Package
        Type_ := c.Exec.Type_ }
    Model :=
      { Filename := if f.models ≠ "" then f.models else c.Model.Filename
        Package := if f.modelPackageName ≠ "" then f.modelPackageName else c.Model.Package
        Type_ := c.Model.Type_ }
    Resolver := c.Resolver
    Models := if f.typemap ≠ "" then m else c.Models }

/-- The bytes of the configuration file: the trimmed header comment, an empty
line, the marshalled configuration. -/
def configBytes (b : String) : String :=
  TrimSpace configComment ++ "\n\n" ++ b

/-- The world `initConfig` has reached when it starts to persist a fresh
default configuration: the default config path is set and the loader,
`DefaultConfig` and (with a typemap) `loadModelMap` have been called. -/
def World.beforePersist (env : Collab) (w : World) : World :=
  { w with
    flags := { w.flags with configFilename := "gqlgen.yml" }
    calls := w.calls ++
      [.LoadConfigFromDefaultLocations (env.LoadConfigFromDefaultLocations w.fs),
       .DefaultConfig env.DefaultConfig] ++
      (if w.flags.typemap ≠ "" then [.loadModelMap (env.loadModelMap w.fs w.flags.typemap)] else []) }

/-! ## Concrete collaborators and worlds -/

/-- A configuration with every field empty. -/
def emptyConfig : Config :=
  { SchemaFilename := "", SchemaStr := "",
    Exec := ⟨"", "", ""⟩, Model := ⟨"", "", ""⟩, Resolver := ⟨"", "", ""⟩, Models := [] }

/-- An error that is not a not-found error. -/
def boom : GoError := ⟨"boom", false⟩

/-- Collaborators none of which fails; the loaders find a configuration exactly
when a file exists at the path (at `gqlgen.yml` for the default locations). -/
def envOk : Collab :=
  { LoadConfig := fun fs path => match fs path with
      | some _ => (some emptyConfig, none)
      | none => (none, some ⟨"unable to read config: open " ++ path ++ ": no such file or directory", true⟩)
    LoadConfigFromDefaultLocations := fun fs => match fs "gqlgen.yml" with
      | some _ => (some emptyConfig, none)
      | none => (none, some ⟨"stat gqlgen.yml: no such file or directory", true⟩)
    DefaultConfig := emptyConfig
    loadModelMap := fun _ _ => []
    Marshal := fun _ => .ok "yaml"
    Check := fun _ => none
    Generate := fun fs _ => (none, fs)
    GenerateServer := fun fs _ _ => (none, fs)
    statFault := fun _ _ => none
    writeFault := fun _ _ _ => none
    readFault := fun _ _ => none
    stat_write := fun _ _ _ h => absurd rfl h }

/-- Collaborators on a machine where `f` is a regular file: the path
`f/schema.graphql` can neither be resolved by `os.Stat` nor opened. -/
def envNotDir : Collab :=
  { envOk with
    statFault := fun _ path => if path = "f/schema.graphql" then some "not a directory" else none
    writeFault := fun _ path _ =>
      if path = "f/schema.graphql" then
        some (⟨"open f/schema.graphql: not a directory", false⟩, none)
      else none
    stat_write := fun _ path _ h => by
      by_cases hp : path = "f/schema.graphql"
      · simp [hp]
      · simp [hp] at h }

/-- Collaborators on a read-only directory: every write fails at the open. -/
def envReadOnly : Collab :=
  { envOk with
    writeFault := fun _ path _ => some (⟨"open " ++ path ++ ": permission denied", false⟩, none)
    stat_write := fun _ _ _ _ => by simp }

/-- Collaborators whose `Generate` fails with `boom`. -/
def envGenerateFails : Collab :=
  { envOk with Generate := fun fs _ => (some boom, fs) }

/-- Collaborators whose `GenerateServer` fails with `boom`. -/
def envServerFails : Collab :=
  { envOk with GenerateServer := fun fs _ _ => (some boom, fs) }

/-- Collaborators whose loaders fail with `boom` and give no configuration. -/
def envMalformed : Collab :=
  { envOk with
    LoadConfig := fun _ _ => (none, some boom)
    LoadConfigFromDefaultLocations := fun _ => (none, some boom) }

/-- No flag set. -/
def noFlags : Flags := ⟨"", "", "", "", "", "", "", ""⟩

/-- An empty directory and no flag. -/
def emptyWorld : World :=
  { fs := fun _ => none, flags := noFlags, stdout := [], stderr := [], calls := [] }

/-- A directory that holds an empty schema file, and no flag. -/
def schemaWorld : World :=
  { emptyWorld with fs := fun q => if q = "schema.graphql" then some "" else none }

/-- A configuration whose schema is `schema.graphql`. -/
def schemaConfig : Config :=
  { emptyConfig with SchemaFilename := "schema.graphql" }

/-- An empty directory and every override but the config path given. -/
def overrideWorld : World :=
  { emptyWorld with
    flags :=
      { configFilename := "", schemaFilename := "api.graphql", models := "models.go",
        output := "exec.go", packageName := "graph", modelPackageName := "model",
        typemap := "types.yml", serverFilename := "" } }

/-- An empty directory, the config path given as `my.yml`. -/
def explicitWorld : World :=
  { emptyWorld with flags := { noFlags with configFilename := "my.yml" } }

/-- A directory that holds `my.yml` and no schema, the config path given as
`my.yml`. -/
def initializedWorld : World :=
  { explicitWorld with fs := fun q => if q = "my.yml" then some "yaml" else none }

/-- A directory that holds `my.yml` and the regular file `f`, the config path
given as `my.yml` and the schema path as `f/schema.graphql`. -/
def notDirWorld : World :=
  { emptyWorld with
    fs := fun q => if q = "my.yml" then some "yaml" else if q = "f" then some "" else none
    flags := { noFlags with configFilename := "my.yml", schemaFilename := "f/schema.graphql" } }

/-- The loader result `initConfig` branches on: of `LoadConfig` at the explicit
path when one is given, of `LoadConfigFromDefaultLocations` otherwise. -/
def loaderResult (env : Collab) (w : World) : Option Config × Option GoError :=
  if w.flags.configFilename ≠ "" then env.LoadConfig w.fs w.flags.configFilename
  else env.LoadConfigFromDefaultLocations w.fs

/-- The server filename `GenerateGraphServer` passes on: the supplied one, or
the fixed default. -/
def serverPath (f : Flags) : String :=
  if f.serverFilename = "" then "server/server.go" else f.serverFilename

/-! ## Lemmas on initSchema -/

theorem statResult_present (env : Collab) (fs : FS) (path s : String) (h : fs path = some s) :
    os_IsNotExist (statResult env fs path) = false := by
  unfold statResult os_IsNotExist
  cases env.statFault fs path <;> simp [h]

theorem statResult_absent (env : Collab) (fs : FS) (path : String)
    (hsf : env.statFault fs path = none) (h : fs path = none) :
    os_IsNotExist (statResult env fs path) = true := by
  unfold statResult os_IsNotExist
  simp [hsf, h]

theorem statFault_none_of_write_ok (env : Collab) (fs : FS) (path data : String)
    (hw : env.writeFault fs path data = none) : env.statFault fs path = none := by
  by_contra h
  exact env.stat_write fs path data h hw

theorem initSchema_no_write (env : Collab) (w : World)
    (h : os_IsNotExist (statResult env w.fs (schemaPath w.flags)) = false) :
    initSchema env w = .ret ()
      { w with flags := w.flags.resolveSchema,
               calls := w.calls ++
                 [.Stat (schemaPath w.flags) (statResult env w.fs (schemaPath w.flags))] } := by
  unfold initSchema os_Stat World.log Flags.resolveSchema schemaPath at *
  by_cases hf : w.flags.schemaFilename = ""
  · simp [hf] at h ⊢
    simp [h]
  · simp [hf] at h ⊢
    simp [h]

theorem initSchema_write_ok (env : Collab) (w : World)
    (h : os_IsNotExist (statResult env w.fs (schemaPath w.flags)) = true)
    (hw : env.writeFault w.fs (schemaPath w.flags) (TrimSpace schemaDefault) = none) :
    initSchema env w = .ret ()
      { w with fs := w.fs.write (schemaPath w.flags) (TrimSpace schemaDefault),
               flags := w.flags.resolveSchema,
               calls := w.calls ++
                 [.Stat (schemaPath w.flags) (statResult env w.fs (schemaPath w.flags)),
                  .WriteFile (schemaPath w.flags) (TrimSpace schemaDefault) none] } := by
  unfold initSchema os_Stat ioutil_WriteFile World.log Flags.resolveSchema schemaPath at *
  by_cases hf : w.flags.schemaFilename = ""
  · simp [hf] at h hw ⊢
    simp [h, hw]
  · simp [hf] at h hw ⊢
    simp [h, hw]

theorem initSchema_write_fault (env : Collab) (w : World) (e : GoError) (left : Option String)
    (h : os_IsNotExist (statResult env w.fs (schemaPath w.flags)) = true)
    (hw : env.writeFault w.fs (schemaPath w.flags) (TrimSpace schemaDefault) = some (e, left)) :
    initSchema env w = .exit 1
      { w with fs := w.fs.leave (schemaPath w.flags) left,
               flags := w.flags.resolveSchema,
               stderr := w.stderr ++ ["unable to write schema file: " ++ e.msg],
               calls := w.calls ++
                 [.Stat (schemaPath w.flags) (statResult env w.fs (schemaPath w.flags)),
                  .WriteFile (schemaPath w.flags) (TrimSpace schemaDefault) (some e)] } := by
  unfold initSchema os_Stat ioutil_WriteFile World.log World.errln Flags.resolveSchema schemaPath at *
  by_cases hf : w.flags.schemaFilename = ""
  · simp [hf] at h hw ⊢
    simp [h, hw]
  · simp [hf] at h hw ⊢
    simp [h, hw]

theorem leave_frame (fs : FS) (path : String) (left : Option String) (q : String)
    (hq : q ≠ path) : fs.leave path left q = fs q := by
  cases left <;> simp [FS.leave, FS.write, hq]

/-! ## Lemmas on initConfig -/

theorem assignIf_some (flag : String) (set : Config → Config) (c : Config) (w : World) :
    assignIf flag set (some c) w = .ret (some (if flag ≠ "" then set c else c)) w := by
  unfold assignIf
  by_cases h : flag = "" <;> simp [h]

theorem initConfig_overrides_some (env : Collab) (c : Config) (w : World) :
    initConfig_overrides env (some c) w =
      .ret (some (withOverrides w.flags (env.loadModelMap w.fs w.flags.typemap) c))
        { w with calls := w.calls ++
            (if w.flags.typemap ≠ "" then [.loadModelMap (env.loadModelMap w.fs w.flags.typemap)] else []) } := by
  unfold initConfig_overrides
  simp only [assignIf_some, Outcome.andThen, World.log, withOverrides]
  by_cases h1 : w.flags.schemaFilename = "" <;> by_cases h2 : w.flags.models = "" <;>
    by_cases h3 : w.flags.output = "" <;> by_cases h4 : w.flags.packageName = "" <;>
    by_cases h5 : w.flags.modelPackageName = "" <;> by_cases h6 : w.flags.typemap = "" <;>
    simp [h1, h2, h3, h4, h5, h6]

theorem initConfig_load_fresh (env : Collab) (w : World)
    (hcf : w.flags.configFilename = "")
    (hnf : NotFound (env.LoadConfigFromDefaultLocations w.fs)) :
    initConfig_load env w = .ret (some (defaultBase env))
      { w with
        flags := { w.flags with configFilename := "gqlgen.yml" }
        calls := w.calls ++
          [.LoadConfigFromDefaultLocations (env.LoadConfigFromDefaultLocations w.fs),
           .DefaultConfig env.DefaultConfig] } := by
  obtain ⟨e, he, hne⟩ := hnf
  unfold initConfig_load
  simp [hcf, he, hne, World.log, defaultBase, os_IsNotExist]

theorem initConfig_fresh (env : Collab) (w : World)
    (hcf : w.flags.configFilename = "")
    (hnf : NotFound (env.LoadConfigFromDefaultLocations w.fs)) :
    initConfig env w =
      initConfig_persist env
        (some (withOverrides w.flags (env.loadModelMap w.fs w.flags.typemap) (defaultBase env)))
        (w.beforePersist env) := by
  unfold initConfig
  rw [initConfig_load_fresh env w hcf hnf]
  simp only [Outcome.andThen, initConfig_overrides_some, World.beforePersist, List.append_assoc,
    withOverrides]

theorem initConfig_persist_ok (env : Collab) (config : Option Config) (w : World) (b : String)
    (hm : env.Marshal config = .ok b)
    (hw : env.writeFault w.fs w.flags.configFilename (configBytes b) = none) :
    initConfig_persist env config w = .ret config
      { w with
        fs := w.fs.write w.flags.configFilename (configBytes b)
        calls := w.calls ++
          [.Marshal config (.ok b), .WriteFile w.flags.configFilename (configBytes b) none] } := by
  unfold initConfig_persist ioutil_WriteFile
  simp only [configBytes] at hw
  simp [hm, hw, World.log, configBytes]

theorem initConfig_persist_marshal_fault (env : Collab) (config : Option Config) (w : World)
    (e : GoError) (hm : env.Marshal config = .error e) :
    initConfig_persist env config w = .exit 1
      { w with
        stderr := w.stderr ++ ["unable to marshal yaml: " ++ e.msg]
        calls := w.calls ++ [.Marshal config (.error e)] } := by
  unfold initConfig_persist
  simp [hm, World.log, World.errln]

theorem initConfig_persist_write_fault (env : Collab) (config : Option Config) (w : World)
    (b : String) (e : GoError) (left : Option String)
    (hm : env.Marshal config = .ok b)
    (hw : env.writeFault w.fs w.flags.configFilename (configBytes b) = some (e, left)) :
    initConfig_persist env config w = .exit 1
      { w with
        fs := w.fs.leave w.flags.configFilename left
        stderr := w.stderr ++ ["unable to write config file: " ++ e.msg]
        calls := w.calls ++
          [.Marshal config (.ok b), .WriteFile w.flags.configFilename (configBytes b) (some e)] } := by
  unfold initConfig_persist ioutil_WriteFile
  simp only [configBytes] at hw
  simp [hm, hw, World.log, World.errln, configBytes]

theorem initConfig_explicit_error (env : Collab) (w : World) (e : GoError)
    (hcf : w.flags.configFilename ≠ "")
    (he : (env.LoadConfig w.fs w.flags.configFilename).2 = some e) :
    initConfig env w = .exit 1
      { w with
        stderr := w.stderr ++ [e.msg]
        calls := w.calls ++
          [.LoadConfig w.flags.configFilename (env.LoadConfig w.fs w.flags.configFilename)] } := by
  unfold initConfig initConfig_load
  simp [hcf, he, World.log, World.errln, Outcome.andThen]

theorem initConfig_explicit_loaded (env : Collab) (w : World)
    (hcf : w.flags.configFilename ≠ "")
    (hl : Loaded (env.LoadConfig w.fs w.flags.configFilename)) :
    initConfig env w = .exit 0
      { w with
        stderr := w.stderr ++ ["config file already exists"]
        calls := w.calls ++
          [.LoadConfig w.flags.configFilename (env.LoadConfig w.fs w.flags.configFilename)] } := by
  obtain ⟨c, hc⟩ := hl
  unfold initConfig initConfig_load
  simp [hcf, hc, World.log, World.errln, Outcome.andThen]

theorem initConfig_default_loaded (env : Collab) (w : World) (c : Config)
    (hcf : w.flags.configFilename = "")
    (hc : (env.LoadConfigFromDefaultLocations w.fs).1 = some c)
    (hn : ∀ e, (env.LoadConfigFromDefaultLocations w.fs).2 = some e → e.notExist = false) :
    initConfig env w = .exit 0
      { w with
        stderr := w.stderr ++ ["config file already exists"]
        calls := w.calls ++
          [.LoadConfigFromDefaultLocations (env.LoadConfigFromDefaultLocations w.fs)] } := by
  unfold initConfig initConfig_load
  cases h2 : (env.LoadConfigFromDefaultLocations w.fs).2 with
  | none => simp [hcf, hc, h2, World.log, World.errln, Outcome.andThen, os_IsNotExist]
  | some e => simp [hcf, hc, h2, hn e h2, World.log, World.errln, Outcome.andThen, os_IsNotExist]

theorem initConfig_default_error (env : Collab) (w : World) (e : GoError)
    (hcf : w.flags.configFilename = "")
    (hc : (env.LoadConfigFromDefaultLocations w.fs).1 = none)
    (he : OtherError (env.LoadConfigFromDefaultLocations w.fs) e) :
    initConfig env w = .exit 1
      { w with
        stderr := w.stderr ++ [e.msg]
        calls := w.calls ++
          [.LoadConfigFromDefaultLocations (env.LoadConfigFromDefaultLocations w.fs)] } := by
  obtain ⟨h2, hne⟩ := he
  unfold initConfig initConfig_load
  simp [hcf, hc, h2, hne, World.log, World.errln, Outcome.andThen, os_IsNotExist]

theorem initCmd_after_initSchema (env : Collab) (w w1 : World)
    (h : initSchema env w = .ret () w1) :
    initCmd env w =
      (initConfig env w1).andThen fun config w => GenerateGraphServer env w config := by
  unfold initCmd
  rw [h]
  rfl

theorem initCmd_initSchema_exit (env : Collab) (w w1 : World) (code : Nat)
    (h : initSchema env w = .exit code w1) :
    initCmd env w = .exit code w1 := by
  unfold initCmd
  rw [h]
  rfl

theorem andThen_exit {α β : Type} (o : Outcome α) (f : α → World → Outcome β)
    (code : Nat) (w : World) (h : o = .exit code w) : o.andThen f = .exit code w := by
  rw [h]
  rfl

theorem string_append_right_cancel (a b m : String) (h : a ++ m = b ++ m) : a = b := by
  have hd := congrArg String.data h
  simp only [String.data_append] at hd
  exact String.ext (List.append_cancel_right hd)

theorem string_append_ne_self (a m : String) (ha : a ≠ "") : a ++ m ≠ m := by
  intro h
  have hd := congrArg String.data h
  simp only [String.data_append, List.append_left_eq_self] at hd
  exact ha (String.ext hd)

/-! ## Lemmas on GenerateGraphServer -/

theorem GenerateGraphServer_read_error (env : Collab) (w : World) (cfg : Config) (e : GoError)
    (hr : readResult env w.fs cfg.SchemaFilename = .error e) :
    ∃ w', GenerateGraphServer env w (some cfg) = .exit 1 w' ∧
      w'.calls = w.calls ++ [.ReadFile cfg.SchemaFilename (.error e)] ∧
      w'.stdout = w.stdout ∧ w'.stderr = w.stderr ++ ["unable to open schema: " ++ e.msg] ∧
      w'.fs = w.fs := by
  unfold GenerateGraphServer ioutil_ReadFile
  simp [hr, World.log, World.errln]

theorem GenerateGraphServer_check_error (env : Collab) (w : World) (cfg : Config)
    (bytes : String) (e : GoError)
    (hr : readResult env w.fs cfg.SchemaFilename = .ok bytes)
    (hc : env.Check { cfg with SchemaStr := bytes } = some e) :
    ∃ w', GenerateGraphServer env w (some cfg) = .exit 1 w' ∧
      w'.calls = w.calls ++ [.ReadFile cfg.SchemaFilename (.ok bytes),
        .Check { cfg with SchemaStr := bytes } (some e)] ∧
      w'.stdout = w.stdout ∧ w'.stderr = w.stderr ++ ["invalid config format: " ++ e.msg] ∧
      w'.fs = w.fs := by
  unfold GenerateGraphServer ioutil_ReadFile
  simp [hr, hc, World.log, World.errln]

theorem GenerateGraphServer_generate_error (env : Collab) (w : World) (cfg : Config)
    (bytes : String) (e : GoError)
    (hr : readResult env w.fs cfg.SchemaFilename = .ok bytes)
    (hc : env.Check { cfg with SchemaStr := bytes } = none)
    (hg : (env.Generate w.fs { cfg with SchemaStr := bytes }).1 = some e) :
    ∃ w', GenerateGraphServer env w (some cfg) = .exit 1 w' ∧
      w'.calls = w.calls ++ [.ReadFile cfg.SchemaFilename (.ok bytes),
        .Check { cfg with SchemaStr := bytes } none,
        .Generate { cfg with SchemaStr := bytes } (some e)] ∧
      w'.stdout = w.stdout ∧ w'.stderr = w.stderr ++ [e.msg] ∧
      w'.fs = (env.Generate w.fs { cfg with SchemaStr := bytes }).2 := by
  unfold GenerateGraphServer ioutil_ReadFile
  by_cases hs : w.flags.serverFilename = "" <;>
    simp [hr, hc, hg, hs, World.log, World.errln]

theorem GenerateGraphServer_server_error (env : Collab) (w : World) (cfg : Config)
    (bytes : String) (e : GoError)
    (hr : readResult env w.fs cfg.SchemaFilename = .ok bytes)
    (hc : env.Check { cfg with SchemaStr := bytes } = none)
    (hg : (env.Generate w.fs { cfg with SchemaStr := bytes }).1 = none)
    (hs : (env.GenerateServer (env.Generate w.fs { cfg with SchemaStr := bytes }).2
      { cfg with SchemaStr := bytes } (serverPath w.flags)).1 = some e) :
    ∃ w', GenerateGraphServer env w (some cfg) = .exit 1 w' ∧
      w'.calls = w.calls ++ [.ReadFile cfg.SchemaFilename (.ok bytes),
        .Check { cfg with SchemaStr := bytes } none,
        .Generate { cfg with SchemaStr := bytes } none,
        .GenerateServer { cfg with SchemaStr := bytes } (serverPath w.flags) (some e)] ∧
      w'.stdout = w.stdout ∧ w'.stderr = w.stderr ++ [e.msg] ∧
      w'.fs = (env.GenerateServer (env.Generate w.fs { cfg with SchemaStr := bytes }).2
        { cfg with SchemaStr := bytes } (serverPath w.flags)).2 := by
  unfold GenerateGraphServer ioutil_ReadFile
  unfold serverPath at hs ⊢
  by_cases hf : w.flags.serverFilename = "" <;>
    simp [hf] at hs <;>
    simp [hr, hc, hg, hs, hf, World.log, World.errln]

theorem GenerateGraphServer_all_ok (env : Collab) (w : World) (cfg : Config)
    (bytes : String)
    (hr : readResult env w.fs cfg.SchemaFilename = .ok bytes)
    (hc : env.Check { cfg with SchemaStr := bytes } = none)
    (hg : (env.Generate w.fs { cfg with SchemaStr := bytes }).1 = none)
    (hs : (env.GenerateServer (env.Generate w.fs { cfg with SchemaStr := bytes }).2
      { cfg with SchemaStr := bytes } (serverPath w.flags)).1 = none) :
    ∃ w', GenerateGraphServer env w (some cfg) = .ret () w' ∧
      w'.calls = w.calls ++ [.ReadFile cfg.SchemaFilename (.ok bytes),
        .Check { cfg with SchemaStr := bytes } none,
        .Generate { cfg with SchemaStr := bytes } none,
        .GenerateServer { cfg with SchemaStr := bytes } (serverPath w.flags) none] ∧
      w'.stdout = w.stdout ++ [successLine] ∧ w'.stderr = w.stderr ∧
      w'.fs = (env.GenerateServer (env.Generate w.fs { cfg with SchemaStr := bytes }).2
        { cfg with SchemaStr := bytes } (serverPath w.flags)).2 := by
  unfold GenerateGraphServer ioutil_ReadFile
  unfold serverPath at hs ⊢
  by_cases hf : w.flags.serverFilename = "" <;>
    simp [hf] at hs <;>
    simp [hr, hc, hg, hs, hf, World.log, World.outln]

/-! ## initSchema -/

/-- C6: when a file already exists at the resolved schema path, whatever its
content, `initSchema` returns, the filesystem and both streams are as before,
and the only call made is the `os.Stat` of that path: nothing is written. -/
theorem initSchema_keeps_existing_file (env : Collab) (w : World)
    (h : w.fs (schemaPath w.flags) ≠ none) :
    ∃ w', initSchema env w = .ret () w' ∧ w'.fs = w.fs ∧
      w'.stdout = w.stdout ∧ w'.stderr = w.stderr ∧
      w'.calls = w.calls ++
        [.Stat (schemaPath w.flags) (statResult env w.fs (schemaPath w.flags))] := by
  cases hs : w.fs (schemaPath w.flags) with
  | none => exact absurd hs h
  | some s =>
    exact ⟨_, initSchema_no_write env w (statResult_present env w.fs _ s hs), rfl, rfl, rfl, rfl⟩

theorem initSchema_keeps_existing_file_witness :
    schemaWorld.fs (schemaPath schemaWorld.flags) ≠ none ∧
    ∃ w', initSchema envOk schemaWorld = .ret () w' ∧ w'.fs = schemaWorld.fs ∧
      w'.stdout = schemaWorld.stdout ∧ w'.stderr = schemaWorld.stderr ∧
      w'.calls = schemaWorld.calls ++
        [.Stat (schemaPath schemaWorld.flags)
          (statResult envOk schemaWorld.fs (schemaPath schemaWorld.flags))] :=
  ⟨by decide, initSchema_keeps_existing_file envOk schemaWorld (by decide)⟩

/-- C7, as stated, fails: in an empty directory with no flag the write succeeds
and the file created at `schema.graphql` holds the trimmed template, which is
not `schemaDefault` (that one starts and ends with a newline). -/
theorem initSchema_content_differs_from_schemaDefault :
    emptyWorld.fs (schemaPath emptyWorld.flags) = none ∧
    (∀ d, envOk.writeFault emptyWorld.fs (schemaPath emptyWorld.flags) d = none) ∧
    ∃ w', initSchema envOk emptyWorld = .ret () w' ∧
      w'.fs (schemaPath emptyWorld.flags) = some (TrimSpace schemaDefault) ∧
      w'.fs (schemaPath emptyWorld.flags) ≠ some schemaDefault := by
  refine ⟨rfl, fun _ => rfl, _, initSchema_write_ok envOk emptyWorld rfl rfl, ?_, ?_⟩
  · simp [FS.write]
  · simp only [FS.write, if_true, ne_eq, Option.some.injEq]
    decide

/-- C7, amended: when no file exists at the resolved schema path and the write
succeeds, `initSchema` returns, the file at that path holds
`strings.TrimSpace(schemaDefault)`, and every other path is as before. -/
theorem initSchema_creates_trimmed_starter (env : Collab) (w : World)
    (h : w.fs (schemaPath w.flags) = none)
    (hw : env.writeFault w.fs (schemaPath w.flags) (TrimSpace schemaDefault) = none) :
    ∃ w', initSchema env w = .ret () w' ∧
      w'.fs (schemaPath w.flags) = some (TrimSpace schemaDefault) ∧
      ∀ q, q ≠ schemaPath w.flags → w'.fs q = w.fs q := by
  have hst := statResult_absent env w.fs _ (statFault_none_of_write_ok env _ _ _ hw) h
  refine ⟨_, initSchema_write_ok env w hst hw, ?_, ?_⟩
  · simp [FS.write]
  · intro q hq
    simp [FS.write, hq]

theorem initSchema_creates_trimmed_starter_witness :
    emptyWorld.fs (schemaPath emptyWorld.flags) = none ∧
    ∃ w', initSchema envOk emptyWorld = .ret () w' ∧
      w'.fs (schemaPath emptyWorld.flags) = some (TrimSpace schemaDefault) ∧
      ∀ q, q ≠ schemaPath emptyWorld.flags → w'.fs q = emptyWorld.fs q :=
  ⟨rfl, initSchema_creates_trimmed_starter envOk emptyWorld rfl rfl⟩

/-! ## initConfig -/

/-- C2, the code at the failing input: with the explicit config path `my.yml`
in an empty directory, `LoadConfig` fails with a not-found cause and
`initConfig` exits with code 1 after printing that error; no default
configuration is built and nothing is written. -/
theorem initConfig_explicit_not_found_exits_1 :
    explicitWorld.flags.configFilename ≠ "" ∧
    NotFound (envOk.LoadConfig explicitWorld.fs explicitWorld.flags.configFilename) ∧
    ∃ w', initConfig envOk explicitWorld = .exit 1 w' ∧
      w'.fs = explicitWorld.fs ∧
      w'.stderr = ["unable to read config: open my.yml: no such file or directory"] ∧
      w'.calls = [.LoadConfig "my.yml" (envOk.LoadConfig explicitWorld.fs "my.yml")] :=
  ⟨by decide, ⟨_, rfl, rfl⟩,
   _, initConfig_explicit_error envOk explicitWorld _ (by decide) rfl, rfl, rfl, rfl⟩

/-- C3: when no explicit config path is given and the default-location search
fails with a not-found cause, every configuration `initConfig` returns is
`c = DefaultConfig()` with `Resolver` set, changed only where an override is
non-empty: `SchemaFilename`, `Model.Filename`, `Exec.Filename`, `Exec.Package`,
`Model.Package` take the override, `Models` is `loadModelMap()` whole, and each
field whose override is empty, and each field without an override, is as in
`c`. It does return whenever marshalling and the write succeed. -/
theorem initConfig_applies_exactly_the_overrides (env : Collab) (w : World)
    (hcf : w.flags.configFilename = "")
    (hnf : NotFound (env.LoadConfigFromDefaultLocations w.fs)) :
    let c := defaultBase env
    let f := w.flags
    (∀ r w', initConfig env w = .ret r w' → ∃ cfg, r = some cfg ∧
      cfg.SchemaFilename = (if f.schemaFilename ≠ "" then f.schemaFilename else c.SchemaFilename) ∧
      cfg.Model.Filename = (if f.models ≠ "" then f.models else c.Model.Filename) ∧
      cfg.Exec.Filename = (if f.output ≠ "" then f.output else c.Exec.Filename) ∧
      cfg.Exec.Package = (if f.packageName ≠ "" then f.packageName else c.Exec.Package) ∧
      cfg.Model.Package = (if f.modelPackageName ≠ "" then f.modelPackageName else c.Model.Package) ∧
      cfg.Models = (if f.typemap ≠ "" then env.loadModelMap w.fs f.typemap else c.Models) ∧
      cfg.SchemaStr = c.SchemaStr ∧ cfg.Exec.Type_ = c.Exec.Type_ ∧
      cfg.Model.Type_ = c.Model.Type_ ∧ cfg.Resolver = c.Resolver) ∧
    (∀ b, env.Marshal (some (withOverrides f (env.loadModelMap w.fs f.typemap) c)) = .ok b →
      env.writeFault w.fs "gqlgen.yml" (configBytes b) = none →
      ∃ r w', initConfig env w = .ret r w') := by
  intro c f
  rw [initConfig_fresh env w hcf hnf]
  constructor
  · intro r w' h
    have hr : r = some (withOverrides f (env.loadModelMap w.fs f.typemap) c) := by
      cases hm : env.Marshal (some (withOverrides w.flags (env.loadModelMap w.fs w.flags.typemap)
        (defaultBase env))) with
      | error e =>
        rw [initConfig_persist_marshal_fault env _ _ e hm] at h
        cases h
      | ok b =>
        cases hw : env.writeFault (w.beforePersist env).fs
          (w.beforePersist env).flags.configFilename (configBytes b) with
        | some el =>
          rw [initConfig_persist_write_fault env _ _ b el.1 el.2 hm hw] at h
          cases h
        | none =>
          rw [initConfig_persist_ok env _ _ b hm hw] at h
          simp only [Outcome.ret.injEq] at h
          exact h.1.symm
    exact ⟨_, hr, rfl, rfl, rfl, rfl, rfl, rfl, rfl, rfl, rfl, rfl⟩
  · intro b hm hw
    exact ⟨_, _, initConfig_persist_ok env _ (w.beforePersist env) b hm hw⟩

theorem initConfig_applies_exactly_the_overrides_witness :
    overrideWorld.flags.configFilename = "" ∧
    NotFound (envOk.LoadConfigFromDefaultLocations overrideWorld.fs) ∧
    ∃ r w', initConfig envOk overrideWorld = .ret r w' :=
  ⟨rfl, ⟨_, rfl, rfl⟩,
   (initConfig_applies_exactly_the_overrides envOk overrideWorld rfl ⟨_, rfl, rfl⟩).2 "yaml" rfl rfl⟩

/-- C4: with no explicit config path, a default-location search that fails with
a not-found cause, and marshalling and the write succeeding, `initConfig`
returns `DefaultConfig()` with `Resolver` set to `resolver.go` / `Resolver` and
the overrides applied; afterwards the file `gqlgen.yml` holds the trimmed
`configComment`, an empty line and the marshalled returned configuration, and
every other path is as before. -/
theorem initConfig_writes_default_config (env : Collab) (w : World) (b : String)
    (hcf : w.flags.configFilename = "")
    (hnf : NotFound (env.LoadConfigFromDefaultLocations w.fs))
    (hm : env.Marshal (some (withOverrides w.flags (env.loadModelMap w.fs w.flags.typemap)
      (defaultBase env))) = .ok b)
    (hw : env.writeFault w.fs "gqlgen.yml" (TrimSpace configComment ++ "\n\n" ++ b) = none) :
    ∃ cfg w', initConfig env w = .ret (some cfg) w' ∧
      cfg = withOverrides w.flags (env.loadModelMap w.fs w.flags.typemap) (defaultBase env) ∧
      env.Marshal (some cfg) = .ok b ∧
      w'.fs "gqlgen.yml" = some (TrimSpace configComment ++ "\n\n" ++ b) ∧
      ∀ q, q ≠ "gqlgen.yml" → w'.fs q = w.fs q := by
  have hw' : env.writeFault (w.beforePersist env).fs (w.beforePersist env).flags.configFilename
      (configBytes b) = none := hw
  have hrun := (initConfig_fresh env w hcf hnf).trans
    (initConfig_persist_ok env _ (w.beforePersist env) b hm hw')
  refine ⟨_, _, hrun, rfl, hm, ?_, ?_⟩
  · simp [FS.write, World.beforePersist, configBytes]
  · intro q hq
    simp [FS.write, World.beforePersist, hq]

theorem initConfig_writes_default_config_witness :
    emptyWorld.flags.configFilename = "" ∧
    NotFound (envOk.LoadConfigFromDefaultLocations emptyWorld.fs) ∧
    ∃ cfg w', initConfig envOk emptyWorld = .ret (some cfg) w' ∧
      cfg = withOverrides emptyWorld.flags
        (envOk.loadModelMap emptyWorld.fs emptyWorld.flags.typemap)
        (defaultBase envOk) ∧
      envOk.Marshal (some cfg) = .ok "yaml" ∧
      w'.fs "gqlgen.yml" = some (TrimSpace configComment ++ "\n\n" ++ "yaml") ∧
      ∀ q, q ≠ "gqlgen.yml" → w'.fs q = emptyWorld.fs q :=
  ⟨rfl, ⟨_, rfl, rfl⟩,
   initConfig_writes_default_config envOk emptyWorld "yaml" rfl ⟨_, rfl, rfl⟩ rfl rfl⟩

/-- C5, as stated, fails: in an empty read-only directory the default-location
search finds nothing, and the first `initConfig` exits with code 1 on the failed
write; no configuration file is persisted. -/
theorem initConfig_first_run_may_not_persist :
    emptyWorld.flags.configFilename = "" ∧
    NotFound (envReadOnly.LoadConfigFromDefaultLocations emptyWorld.fs) ∧
    ∃ w', initConfig envReadOnly emptyWorld = .exit 1 w' ∧
      w'.stderr = ["unable to write config file: open gqlgen.yml: permission denied"] ∧
      w'.fs "gqlgen.yml" = none ∧ w'.fs = emptyWorld.fs := by
  have h := (initConfig_fresh envReadOnly emptyWorld rfl ⟨_, rfl, rfl⟩).trans
    (initConfig_persist_write_fault envReadOnly _ _ "yaml"
      ⟨"open gqlgen.yml: permission denied", false⟩ none rfl (by decide))
  exact ⟨rfl, ⟨_, rfl, rfl⟩, _, h, rfl, rfl, rfl⟩

/-- C5, amended: with no explicit config path, a default-location search that
finds nothing, and marshalling and the write succeeding, the first `initConfig`
returns after writing the configuration file `gqlgen.yml`, the only path it
changes. Where the default-location search on that filesystem finds and loads a
file, a second `initConfig` started on it, with any overrides but no explicit
config path, prints that the config file already exists, exits with code 0,
makes no write and leaves the filesystem, so the persisted file, as it is. -/
theorem initConfig_second_run_is_noop (env : Collab) (w : World) (b : String)
    (hcf : w.flags.configFilename = "")
    (hnf : NotFound (env.LoadConfigFromDefaultLocations w.fs))
    (hm : env.Marshal (some (withOverrides w.flags (env.loadModelMap w.fs w.flags.typemap)
      (defaultBase env))) = .ok b)
    (hw : env.writeFault w.fs "gqlgen.yml" (configBytes b) = none)
    (hfound : Loaded (env.LoadConfigFromDefaultLocations (w.fs.write "gqlgen.yml" (configBytes b)))) :
    ∃ w1, initConfig env w = .ret (some (withOverrides w.flags
        (env.loadModelMap w.fs w.flags.typemap) (defaultBase env))) w1 ∧
      w1.fs = w.fs.write "gqlgen.yml" (configBytes b) ∧
      w1.fs "gqlgen.yml" = some (configBytes b) ∧
      ∀ v : World, v.fs = w1.fs → v.flags.configFilename = "" →
        ∃ w2, initConfig env v = .exit 0 w2 ∧
          w2.fs = w1.fs ∧ w2.fs "gqlgen.yml" = some (configBytes b) ∧
          w2.stderr = v.stderr ++ ["config file already exists"] ∧
          w2.stdout = v.stdout ∧
          w2.calls = v.calls ++
            [.LoadConfigFromDefaultLocations (env.LoadConfigFromDefaultLocations v.fs)] := by
  have hw' : env.writeFault (w.beforePersist env).fs (w.beforePersist env).flags.configFilename
      (configBytes b) = none := hw
  have hrun := (initConfig_fresh env w hcf hnf).trans
    (initConfig_persist_ok env _ (w.beforePersist env) b hm hw')
  obtain ⟨c2, hc2⟩ := hfound
  refine ⟨_, hrun, rfl, ?_, ?_⟩
  · simp [FS.write, World.beforePersist]
  · intro v hv hvc
    have hl : env.LoadConfigFromDefaultLocations v.fs = (some c2, none) := by
      rw [hv]
      exact hc2
    refine ⟨_, initConfig_default_loaded env v c2 hvc (by rw [hl]) ?_, hv, ?_, rfl, rfl, rfl⟩
    · intro e he
      rw [hl] at he
      cases he
    · rw [hv]
      simp [FS.write, World.beforePersist]

theorem initConfig_second_run_is_noop_witness :
    emptyWorld.flags.configFilename = "" ∧
    NotFound (envOk.LoadConfigFromDefaultLocations emptyWorld.fs) ∧
    envOk.Marshal (some (withOverrides emptyWorld.flags
      (envOk.loadModelMap emptyWorld.fs emptyWorld.flags.typemap) (defaultBase envOk))) = .ok "yaml" ∧
    envOk.writeFault emptyWorld.fs "gqlgen.yml" (configBytes "yaml") = none ∧
    Loaded (envOk.LoadConfigFromDefaultLocations
      (emptyWorld.fs.write "gqlgen.yml" (configBytes "yaml"))) ∧
    ∃ w1, initConfig envOk emptyWorld = .ret (some (withOverrides emptyWorld.flags
        (envOk.loadModelMap emptyWorld.fs emptyWorld.flags.typemap) (defaultBase envOk))) w1 ∧
      w1.fs = emptyWorld.fs.write "gqlgen.yml" (configBytes "yaml") ∧
      w1.fs "gqlgen.yml" = some (configBytes "yaml") ∧
      ∀ v : World, v.fs = w1.fs → v.flags.configFilename = "" →
        ∃ w2, initConfig envOk v = .exit 0 w2 ∧
          w2.fs = w1.fs ∧ w2.fs "gqlgen.yml" = some (configBytes "yaml") ∧
          w2.stderr = v.stderr ++ ["config file already exists"] ∧
          w2.stdout = v.stdout ∧
          w2.calls = v.calls ++
            [.LoadConfigFromDefaultLocations (envOk.LoadConfigFromDefaultLocations v.fs)] :=
  ⟨rfl, ⟨_, rfl, rfl⟩, rfl, rfl, ⟨emptyConfig, by decide⟩,
   initConfig_second_run_is_noop envOk emptyWorld "yaml" rfl ⟨_, rfl, rfl⟩ rfl rfl
     ⟨emptyConfig, by decide⟩⟩

/-- C9: for every loader result carrying an error whose cause is not not-found,
the loader giving no configuration along with its error (which matters in the
default-search branch only), in both branches `initConfig` exits with code 1,
the text written to the error stream is that error's message, the filesystem is
as before, and the loader call is the only call made: `DefaultConfig` is not
called and no file is written. -/
theorem initConfig_load_error_is_fatal (env : Collab) (w : World) (e : GoError)
    (he : OtherError (loaderResult env w) e)
    (hnone : w.flags.configFilename = "" → (loaderResult env w).1 = none) :
    ∃ w', initConfig env w = .exit 1 w' ∧
      w'.stderr = w.stderr ++ [e.msg] ∧ w'.stdout = w.stdout ∧ w'.fs = w.fs ∧
      w'.calls = w.calls ++
        [if w.flags.configFilename ≠ "" then
           .LoadConfig w.flags.configFilename (env.LoadConfig w.fs w.flags.configFilename)
         else .LoadConfigFromDefaultLocations (env.LoadConfigFromDefaultLocations w.fs)] := by
  by_cases hcf : w.flags.configFilename = ""
  · have hr : loaderResult env w = env.LoadConfigFromDefaultLocations w.fs := by
      simp [loaderResult, hcf]
    rw [hr] at he
    have hn := hnone hcf
    rw [hr] at hn
    refine ⟨_, initConfig_default_error env w e hcf hn he, rfl, rfl, rfl, ?_⟩
    simp [hcf]
  · have hr : loaderResult env w = env.LoadConfig w.fs w.flags.configFilename := by
      simp [loaderResult, hcf]
    rw [hr] at he
    refine ⟨_, initConfig_explicit_error env w e hcf he.1, rfl, rfl, rfl, ?_⟩
    simp [hcf]

theorem initConfig_load_error_is_fatal_witness :
    OtherError (loaderResult envMalformed emptyWorld) boom ∧
    (emptyWorld.flags.configFilename = "" → (loaderResult envMalformed emptyWorld).1 = none) ∧
    ∃ w', initConfig envMalformed emptyWorld = .exit 1 w' ∧
      w'.stderr = emptyWorld.stderr ++ [boom.msg] ∧ w'.stdout = emptyWorld.stdout ∧
      w'.fs = emptyWorld.fs ∧
      w'.calls = emptyWorld.calls ++
        [if emptyWorld.flags.configFilename ≠ "" then
           .LoadConfig emptyWorld.flags.configFilename
             (envMalformed.LoadConfig emptyWorld.fs emptyWorld.flags.configFilename)
         else .LoadConfigFromDefaultLocations
             (envMalformed.LoadConfigFromDefaultLocations emptyWorld.fs)] :=
  ⟨⟨rfl, rfl⟩, fun _ => rfl,
   initConfig_load_error_is_fatal envMalformed emptyWorld boom ⟨rfl, rfl⟩ (fun _ => rfl)⟩

/-! ## The init command -/

/-- C1, as stated, fails: `my.yml` exists and loads, no schema file exists, and
the run exits with code 0 after `initSchema` has written the starter schema to
`schema.graphql`; the filesystem is not the one the run started on. -/
theorem initCmd_config_exists_still_writes_schema :
    initializedWorld.flags.configFilename ≠ "" ∧
    Loaded (envOk.LoadConfig (initSchema envOk initializedWorld).world.fs
      initializedWorld.flags.configFilename) ∧
    initializedWorld.fs (schemaPath initializedWorld.flags) = none ∧
    ∃ w', initCmd envOk initializedWorld = .exit 0 w' ∧
      w'.fs "schema.graphql" = some (TrimSpace schemaDefault) ∧
      w'.fs ≠ initializedWorld.fs := by
  have h1 := initSchema_write_ok envOk initializedWorld rfl rfl
  have hl : Loaded (envOk.LoadConfig (initSchema envOk initializedWorld).world.fs
      initializedWorld.flags.configFilename) := by
    rw [h1]
    exact ⟨emptyConfig, by decide⟩
  refine ⟨by decide, hl, rfl, ?_⟩
  rw [h1] at hl
  simp only [Outcome.world] at hl
  have hrun := (initCmd_after_initSchema envOk initializedWorld _ h1).trans
    (andThen_exit _ _ 0 _ (initConfig_explicit_loaded envOk _ (by decide) hl))
  refine ⟨_, hrun, rfl, ?_⟩
  intro h
  have h3 := congrFun h "schema.graphql"
  revert h3
  decide

/-- C1, amended: with a non-empty explicit config path at which `LoadConfig`
succeeds, the run never reaches a generation stage and the filesystem changes
at most at the resolved schema path. When `os.Stat` of that path answers
anything but a not-exist error (a file exists there, or the path cannot be
resolved) the run exits with code 0 without any write; when it answers not-exist
and the starter-schema write succeeds the run exits with code 0 and that file
holds the trimmed starter schema, the only write made; when that write fails
the run exits with code 1. `initConfig` itself writes nothing. -/
theorem initCmd_config_exists_stops (env : Collab) (w : World)
    (hcf : w.flags.configFilename ≠ "")
    (hl : Loaded (env.LoadConfig (initSchema env w).world.fs w.flags.configFilename)) :
    ∃ code w' new, initCmd env w = .exit code w' ∧ w'.calls = w.calls ++ new ∧
      (∀ c ∈ new, c.stage = none) ∧
      (∀ q, q ≠ schemaPath w.flags → w'.fs q = w.fs q) ∧
      (w.fs (schemaPath w.flags) ≠ none →
        code = 0 ∧ w'.fs = w.fs ∧ ∀ c ∈ new, c.isWrite = false) ∧
      (os_IsNotExist (statResult env w.fs (schemaPath w.flags)) = false →
        code = 0 ∧ w'.fs = w.fs ∧ ∀ c ∈ new, c.isWrite = false) ∧
      (os_IsNotExist (statResult env w.fs (schemaPath w.flags)) = true →
        (env.writeFault w.fs (schemaPath w.flags) (TrimSpace schemaDefault) = none →
          code = 0 ∧ w'.fs (schemaPath w.flags) = some (TrimSpace schemaDefault) ∧
          new.filter Call.isWrite =
            [.WriteFile (schemaPath w.flags) (TrimSpace schemaDefault) none]) ∧
        (env.writeFault w.fs (schemaPath w.flags) (TrimSpace schemaDefault) ≠ none →
          code = 1)) := by
  have hpres : w.fs (schemaPath w.flags) ≠ none →
      os_IsNotExist (statResult env w.fs (schemaPath w.flags)) = false := by
    intro h
    cases hs : w.fs (schemaPath w.flags) with
    | none => exact absurd hs h
    | some s => exact statResult_present env w.fs _ s hs
  cases hst : os_IsNotExist (statResult env w.fs (schemaPath w.flags)) with
  | false =>
    have h1 := initSchema_no_write env w hst
    rw [h1] at hl
    simp only [Outcome.world] at hl
    have hrun := (initCmd_after_initSchema env w _ h1).trans
      (andThen_exit _ _ 0 _ (initConfig_explicit_loaded env _ hcf hl))
    have hnw : ∀ c ∈ [Call.Stat (schemaPath w.flags) (statResult env w.fs (schemaPath w.flags)),
        Call.LoadConfig w.flags.configFilename (env.LoadConfig w.fs w.flags.configFilename)],
        c.isWrite = false := by
      intro c hc
      simp only [List.mem_cons, List.mem_singleton, List.not_mem_nil, or_false] at hc
      rcases hc with rfl | rfl <;> rfl
    refine ⟨0, _, [.Stat (schemaPath w.flags) (statResult env w.fs (schemaPath w.flags)),
      .LoadConfig w.flags.configFilename (env.LoadConfig w.fs w.flags.configFilename)], hrun, ?_, ?_,
      ?_, ?_, ?_, ?_⟩
    · simp [Flags.resolveSchema]
    · intro c hc
      simp only [List.mem_cons, List.mem_singleton, List.not_mem_nil, or_false] at hc
      rcases hc with rfl | rfl <;> rfl
    · intro q _
      rfl
    · intro _
      exact ⟨rfl, rfl, hnw⟩
    · intro _
      exact ⟨rfl, rfl, hnw⟩
    · intro h
      cases h
  | true =>
    have habs : ¬ w.fs (schemaPath w.flags) ≠ none := by
      intro h
      have := hpres h
      rw [hst] at this
      cases this
    cases hw : env.writeFault w.fs (schemaPath w.flags) (TrimSpace schemaDefault) with
    | none =>
      have h1 := initSchema_write_ok env w hst hw
      rw [h1] at hl
      simp only [Outcome.world] at hl
      have hrun := (initCmd_after_initSchema env w _ h1).trans
        (andThen_exit _ _ 0 _ (initConfig_explicit_loaded env _ hcf hl))
      refine ⟨0, _, [.Stat (schemaPath w.flags) (statResult env w.fs (schemaPath w.flags)),
        .WriteFile (schemaPath w.flags) (TrimSpace schemaDefault) none,
        .LoadConfig w.flags.configFilename
          (env.LoadConfig (w.fs.write (schemaPath w.flags) (TrimSpace schemaDefault))
            w.flags.configFilename)], hrun, ?_, ?_, ?_, ?_, ?_, ?_⟩
      · simp [Flags.resolveSchema]
      · intro c hc
        simp only [List.mem_cons, List.mem_singleton, List.not_mem_nil, or_false] at hc
        rcases hc with rfl | rfl | rfl <;> rfl
      · intro q hq
        simp [FS.write, hq]
      · intro h
        exact absurd h habs
      · intro h
        cases h
      · intro _
        refine ⟨fun _ => ⟨rfl, ?_, ?_⟩, fun h => absurd rfl h⟩
        · simp [FS.write]
        · simp [List.filter, Call.isWrite]
    | some el =>
      have h1 := initSchema_write_fault env w el.1 el.2 hst hw
      refine ⟨1, _, [.Stat (schemaPath w.flags) (statResult env w.fs (schemaPath w.flags)),
        .WriteFile (schemaPath w.flags) (TrimSpace schemaDefault) (some el.1)],
        initCmd_initSchema_exit env w _ 1 h1, ?_, ?_, ?_, ?_, ?_, ?_⟩
      · rfl
      · intro c hc
        simp only [List.mem_cons, List.mem_singleton, List.not_mem_nil, or_false] at hc
        rcases hc with rfl | rfl <;> rfl
      · intro q hq
        exact leave_frame w.fs _ el.2 q hq
      · intro h
        exact absurd h habs
      · intro h
        cases h
      · intro _
        exact ⟨fun h => Option.noConfusion h, fun _ => rfl⟩

theorem initCmd_config_exists_stops_witness :
    notDirWorld.flags.configFilename ≠ "" ∧
    Loaded (envNotDir.LoadConfig (initSchema envNotDir notDirWorld).world.fs
      notDirWorld.flags.configFilename) ∧
    ∃ code w' new, initCmd envNotDir notDirWorld = .exit code w' ∧
      w'.calls = notDirWorld.calls ++ new ∧
      (∀ c ∈ new, c.stage = none) ∧
      (∀ q, q ≠ schemaPath notDirWorld.flags → w'.fs q = notDirWorld.fs q) ∧
      (notDirWorld.fs (schemaPath notDirWorld.flags) ≠ none →
        code = 0 ∧ w'.fs = notDirWorld.fs ∧ ∀ c ∈ new, c.isWrite = false) ∧
      (os_IsNotExist (statResult envNotDir notDirWorld.fs (schemaPath notDirWorld.flags)) = false →
        code = 0 ∧ w'.fs = notDirWorld.fs ∧ ∀ c ∈ new, c.isWrite = false) ∧
      (os_IsNotExist (statResult envNotDir notDirWorld.fs (schemaPath notDirWorld.flags)) = true →
        (envNotDir.writeFault notDirWorld.fs (schemaPath notDirWorld.flags)
            (TrimSpace schemaDefault) = none →
          code = 0 ∧
          w'.fs (schemaPath notDirWorld.flags) = some (TrimSpace schemaDefault) ∧
          new.filter Call.isWrite =
            [.WriteFile (schemaPath notDirWorld.flags) (TrimSpace schemaDefault) none]) ∧
        (envNotDir.writeFault notDirWorld.fs (schemaPath notDirWorld.flags)
            (TrimSpace schemaDefault) ≠ none →
          code = 1)) :=
  ⟨by decide,
   ⟨emptyConfig, by rw [initSchema_no_write envNotDir notDirWorld (by decide)]; decide⟩,
   initCmd_config_exists_stops envNotDir notDirWorld (by decide)
     ⟨emptyConfig, by rw [initSchema_no_write envNotDir notDirWorld (by decide)]; decide⟩⟩

/-! ## GenerateGraphServer -/

/-- C8: whatever the collaborators answer, `GenerateGraphServer` runs read-schema,
`Check`, `Generate`, `GenerateServer` in this order, each at most once and each
only after every earlier one succeeded; `Check` and both generation stages get
the configuration with `SchemaStr` set to the bytes read from `SchemaFilename`,
and `GenerateServer` works on the filesystem `Generate` left. When a stage
fails the process exits with code 1, the stages after it are not called and
nothing is printed to stdout; when all four succeed the function returns and
has printed the success line, once. The calls listed are all the calls made. -/
theorem GenerateGraphServer_fail_fast (env : Collab) (w : World) (cfg : Config) :
    (∀ e, readResult env w.fs cfg.SchemaFilename = .error e →
      ∃ w', GenerateGraphServer env w (some cfg) = .exit 1 w' ∧
        w'.calls = w.calls ++ [.ReadFile cfg.SchemaFilename (.error e)] ∧
        w'.stdout = w.stdout ∧ w'.fs = w.fs) ∧
    (∀ bytes, readResult env w.fs cfg.SchemaFilename = .ok bytes →
      (∀ e, env.Check { cfg with SchemaStr := bytes } = some e →
        ∃ w', GenerateGraphServer env w (some cfg) = .exit 1 w' ∧
          w'.calls = w.calls ++ [.ReadFile cfg.SchemaFilename (.ok bytes),
            .Check { cfg with SchemaStr := bytes } (some e)] ∧
          w'.stdout = w.stdout ∧ w'.fs = w.fs) ∧
      (env.Check { cfg with SchemaStr := bytes } = none →
        (∀ e, (env.Generate w.fs { cfg with SchemaStr := bytes }).1 = some e →
          ∃ w', GenerateGraphServer env w (some cfg) = .exit 1 w' ∧
            w'.calls = w.calls ++ [.ReadFile cfg.SchemaFilename (.ok bytes),
              .Check { cfg with SchemaStr := bytes } none,
              .Generate { cfg with SchemaStr := bytes } (some e)] ∧
            w'.stdout = w.stdout ∧
            w'.fs = (env.Generate w.fs { cfg with SchemaStr := bytes }).2) ∧
        ((env.Generate w.fs { cfg with SchemaStr := bytes }).1 = none →
          (∀ e, (env.GenerateServer (env.Generate w.fs { cfg with SchemaStr := bytes }).2
              { cfg with SchemaStr := bytes } (serverPath w.flags)).1 = some e →
            ∃ w', GenerateGraphServer env w (some cfg) = .exit 1 w' ∧
              w'.calls = w.calls ++ [.ReadFile cfg.SchemaFilename (.ok bytes),
                .Check { cfg with SchemaStr := bytes } none,
                .Generate { cfg with SchemaStr := bytes } none,
                .GenerateServer { cfg with SchemaStr := bytes } (serverPath w.flags) (some e)] ∧
              w'.stdout = w.stdout ∧
              w'.fs = (env.GenerateServer (env.Generate w.fs { cfg with SchemaStr := bytes }).2
                { cfg with SchemaStr := bytes } (serverPath w.flags)).2) ∧
          ((env.GenerateServer (env.Generate w.fs { cfg with SchemaStr := bytes }).2
              { cfg with SchemaStr := bytes } (serverPath w.flags)).1 = none →
            ∃ w', GenerateGraphServer env w (some cfg) = .ret () w' ∧
              w'.calls = w.calls ++ [.ReadFile cfg.SchemaFilename (.ok bytes),
                .Check { cfg with SchemaStr := bytes } none,
                .Generate { cfg with SchemaStr := bytes } none,
                .GenerateServer { cfg with SchemaStr := bytes } (serverPath w.flags) none] ∧
              w'.stdout = w.stdout ++ [successLine] ∧ w'.stderr = w.stderr ∧
              w'.fs = (env.GenerateServer (env.Generate w.fs { cfg with SchemaStr := bytes }).2
                { cfg with SchemaStr := bytes } (serverPath w.flags)).2)))) := by
  refine ⟨fun e hr => ?_, fun bytes hr => ⟨fun e hc => ?_, fun hc => ⟨fun e hg => ?_,
    fun hg => ⟨fun e hs => ?_, fun hs => ?_⟩⟩⟩⟩
  · obtain ⟨w', h, hcalls, hout, _, hfs⟩ := GenerateGraphServer_read_error env w cfg e hr
    exact ⟨w', h, hcalls, hout, hfs⟩
  · obtain ⟨w', h, hcalls, hout, _, hfs⟩ :=
      GenerateGraphServer_check_error env w cfg bytes e hr hc
    exact ⟨w', h, hcalls, hout, hfs⟩
  · obtain ⟨w', h, hcalls, hout, _, hfs⟩ :=
      GenerateGraphServer_generate_error env w cfg bytes e hr hc hg
    exact ⟨w', h, hcalls, hout, hfs⟩
  · obtain ⟨w', h, hcalls, hout, _, hfs⟩ :=
      GenerateGraphServer_server_error env w cfg bytes e hr hc hg hs
    exact ⟨w', h, hcalls, hout, hfs⟩
  · exact GenerateGraphServer_all_ok env w cfg bytes hr hc hg hs

/-- C10, as stated, fails: with the schema read and the check succeeding, a
`Generate` that fails with `boom` and a `GenerateServer` that fails with `boom`
make the process write the very same text to the error stream; neither message
carries a stage label. -/
theorem GenerateGraphServer_generation_stages_share_message :
    ∃ w1 w2,
      GenerateGraphServer envGenerateFails schemaWorld (some schemaConfig) = .exit 1 w1 ∧
      GenerateGraphServer envServerFails schemaWorld (some schemaConfig) = .exit 1 w2 ∧
      w1.calls.getLast? = some (.Generate { schemaConfig with SchemaStr := "" } (some boom)) ∧
      w2.calls.getLast? =
        some (.GenerateServer { schemaConfig with SchemaStr := "" } "server/server.go" (some boom)) ∧
      w1.stderr = ["boom"] ∧ w2.stderr = ["boom"] := by
  obtain ⟨w1, h1, hc1, _, he1, _⟩ :=
    GenerateGraphServer_generate_error envGenerateFails schemaWorld schemaConfig "" boom
      rfl rfl rfl
  obtain ⟨w2, h2, hc2, _, he2, _⟩ :=
    GenerateGraphServer_server_error envServerFails schemaWorld schemaConfig "" boom
      rfl rfl rfl rfl
  refine ⟨w1, w2, h1, h2, ?_, ?_, he1, he2⟩
  · rw [hc1]
    rfl
  · rw [hc2]
    rfl

/-- C10, amended: whichever stage of `GenerateGraphServer` fails, with the error
`e`, the process exits with code 1 and has written one line to the error
stream: `unable to open schema: ` and the message of `e` when the schema read
fails, `invalid config format: ` and the message when the check fails, and the
bare message when `Generate` or `GenerateServer` fails. For one and the same
message the two labelled lines differ from each other and from the bare one;
the lines of `Generate` and of `GenerateServer` are the same. -/
theorem GenerateGraphServer_failure_messages (env : Collab) (w : World) (cfg : Config) :
    (∀ e, readResult env w.fs cfg.SchemaFilename = .error e →
      ∃ w', GenerateGraphServer env w (some cfg) = .exit 1 w' ∧
        w'.stderr = w.stderr ++ ["unable to open schema: " ++ e.msg]) ∧
    (∀ bytes, readResult env w.fs cfg.SchemaFilename = .ok bytes →
      (∀ e, env.Check { cfg with SchemaStr := bytes } = some e →
        ∃ w', GenerateGraphServer env w (some cfg) = .exit 1 w' ∧
          w'.stderr = w.stderr ++ ["invalid config format: " ++ e.msg]) ∧
      (env.Check { cfg with SchemaStr := bytes } = none →
        (∀ e, (env.Generate w.fs { cfg with SchemaStr := bytes }).1 = some e →
          ∃ w', GenerateGraphServer env w (some cfg) = .exit 1 w' ∧
            w'.stderr = w.stderr ++ [e.msg]) ∧
        ((env.Generate w.fs { cfg with SchemaStr := bytes }).1 = none →
          ∀ e, (env.GenerateServer (env.Generate w.fs { cfg with SchemaStr := bytes }).2
              { cfg with SchemaStr := bytes } (serverPath w.flags)).1 = some e →
            ∃ w', GenerateGraphServer env w (some cfg) = .exit 1 w' ∧
              w'.stderr = w.stderr ++ [e.msg]))) ∧
    (∀ m : String,
      "unable to open schema: " ++ m ≠ "invalid config format: " ++ m ∧
      "unable to open schema: " ++ m ≠ m ∧
      "invalid config format: " ++ m ≠ m) := by
  refine ⟨fun e hr => ?_, fun bytes hr => ⟨fun e hc => ?_, fun hc => ⟨fun e hg => ?_,
    fun hg e hs => ?_⟩⟩, fun m => ⟨?_, ?_, ?_⟩⟩
  · obtain ⟨w', h, _, _, herr, _⟩ := GenerateGraphServer_read_error env w cfg e hr
    exact ⟨w', h, herr⟩
  · obtain ⟨w', h, _, _, herr, _⟩ := GenerateGraphServer_check_error env w cfg bytes e hr hc
    exact ⟨w', h, herr⟩
  · obtain ⟨w', h, _, _, herr, _⟩ :=
      GenerateGraphServer_generate_error env w cfg bytes e hr hc hg
    exact ⟨w', h, herr⟩
  · obtain ⟨w', h, _, _, herr, _⟩ :=
      GenerateGraphServer_server_error env w cfg bytes e hr hc hg hs
    exact ⟨w', h, herr⟩
  · intro h
    exact absurd (string_append_right_cancel _ _ _ h) (by decide)
  · exact string_append_ne_self _ _ (by decide)
  · exact string_append_ne_self _ _ (by decide)

end Gqlgen
